import Mathlib

/-!
A verification development for the PiggerTimeline view-model pipeline
(`src/pages/index.tsx`).  The repository holds two near-duplicate variants of
the page; both are embedded below where they differ (the date-window
computation and the event coercion differ, the filter and facet logic is
identical in both).

Modelling conventions:
* CSV rows (`EventRow`) keep the source field names; `Type` and `End` are
  written `Type'` and `End'` because Lean reserves those identifiers.
  The optional `URL` field is a `String`, with `""` standing for the absent
  (`undefined`) JavaScript value — both are falsy, which is all the source
  ever tests.
* Calendar dates are represented by their day numbers (days since
  1970-01-01, as an `Int`).  `parseDate` embeds JavaScript `Date.parse`
  restricted to ISO `YYYY-MM-DD` calendar-date strings — the format the feed
  uses; every other string is modelled as unparseable (`none`), matching
  `Date.parse` returning `NaN` on the malformed inputs the spec discusses
  (`""`, `"not-a-date"`).
* `today` (the value of `new Date()` at build time) is an explicit `Int`
  parameter of every definition that reads the clock.
-/

structure EventRow where
  Person : String
  Task : String
  Start : String
  End' : String
  Type' : String
  Status : String
  Progress : String
  Color : String
  Note : String
  URL : String
deriving DecidableEq, Repr

structure FilterState where
  showMilestone : Bool
  person : String
  status : String
deriving DecidableEq, Repr

/-- Leap-year rule of the proleptic Gregorian calendar (as used by JS `Date`). -/
def isLeap (y : Nat) : Bool :=
  (y % 4 == 0 && y % 100 != 0) || y % 400 == 0

def daysInMonth (y m : Nat) : Nat :=
  if m == 2 then (if isLeap y then 29 else 28)
  else if m == 4 || m == 6 || m == 9 || m == 11 then 30
  else 31

/-- Value of a list of decimal digit characters. -/
def digitsToNat (cs : List Char) : Nat :=
  cs.foldl (fun n c => n * 10 + (c.toNat - 48)) 0

/-- Day number (days since 1970-01-01) of a civil date, standard
`days_from_civil` arithmetic.  All divisions act on non-negative operands for
the 4-digit years `parseDate` admits, so rounding conventions do not matter. -/
def daysFromCivil (y m d : Int) : Int :=
  let yAdj : Int := if m ≤ 2 then y - 1 else y
  let era : Int := (if 0 ≤ yAdj then yAdj else yAdj - 399) / 400
  let yoe : Int := yAdj - era * 400
  let doy : Int := (153 * (m + (if 2 < m then -3 else 9)) + 2) / 5 + d - 1
  let doe : Int := yoe * 365 + yoe / 4 - yoe / 100 + doy
  era * 146097 + doe - 719468

/-- Embedding of `Date.parse` / `new Date(s)` on feed date strings: an ISO
`YYYY-MM-DD` calendar date yields its day number, anything else is `none`
(JS `NaN`). -/
def parseDate (s : String) : Option Int :=
  match s.data with
  | [y1, y2, y3, y4, '-', m1, m2, '-', d1, d2] =>
    if (y1.isDigit && y2.isDigit && y3.isDigit && y4.isDigit &&
        m1.isDigit && m2.isDigit && d1.isDigit && d2.isDigit) then
      let y := digitsToNat [y1, y2, y3, y4]
      let m := digitsToNat [m1, m2]
      let d := digitsToNat [d1, d2]
      if 1 ≤ m && m ≤ 12 && 1 ≤ d && d ≤ daysInMonth y m then
        some (daysFromCivil y m d)
      else none
    else none
  | _ => none

/-- The filter predicate of the `useEffect` filter hook (identical in both
variants, lines 49-58 and 290-299):
`(showMilestone || e.Type !== "Milestone") && (!person || e.Person === person)
 && (!status || e.Status === status)`.
JS `!s` on a string is truth of `s == ""`. -/
def passFilter (fs : FilterState) (e : EventRow) : Bool :=
  (fs.showMilestone || e.Type' != "Milestone") &&
  (fs.person == "" || e.Person == fs.person) &&
  (fs.status == "" || e.Status == fs.status)

/-- The source's `events.filter(...)` — the value stored in the `filtered` state, i.e. the
spec's `visibleRows`. -/
def filterRows (events : List EventRow) (fs : FilterState) : List EventRow :=
  events.filter (passFilter fs)

/-- The initial `FilterState`: `showMilestone = true`, `person = ""`,
`status = ""` (lines 44-46). -/
def defaultFilterState : FilterState :=
  { showMilestone := true, person := "", status := "" }

/-- The `statusColors` record of variant 1 (lines 21-27), as a partial map;
a hit is always a non-empty (truthy) string. -/
def statusColors (k : String) : Option String :=
  if k = "已完成" then some "#4caf50"
  else if k = "進行中" then some "#2196f3"
  else if k = "待辦" then some "#ff9800"
  else if k = "重要會議" then some "#d32f2f"
  else if k = "Milestone" then some "#d32f2f"
  else none

/-- Variant 1's `getStatusColor` (lines 29-33): milestones are always red,
otherwise `statusColors[e.Status] || "#607d8b"`. -/
def getStatusColor (e : EventRow) : String :=
  if e.Type' = "Milestone" then "#d32f2f"
  else (statusColors e.Status).getD "#607d8b"

/-- The `personColors` record of variant 2 (lines 257-262). -/
def personColors (k : String) : Option String :=
  if k = "RD" then some "#4caf50"
  else if k = "UI" then some "#2196f3"
  else if k = "PM" then some "#ff9800"
  else if k = "" then some "#607d8b"
  else none

/-- The regex `^#([0-9A-Fa-f]{3}){1,2}$` of `getColor`: `#` followed by
exactly 3 or exactly 6 hex digits. -/
def isHexColor (s : String) : Bool :=
  match s.data with
  | '#' :: rest =>
      (rest.length == 3 || rest.length == 6) &&
      rest.all (fun c => c.isDigit || ('a' ≤ c && c ≤ 'f') || ('A' ≤ c && c ≤ 'F'))
  | _ => false

/-- Variant 2's `getColor` (lines 263-267).  The truthiness guards `e.Color &&`
are kept; every value stored in `personColors` is a non-empty string, so a
successful lookup is always truthy. -/
def getColor (e : EventRow) : String :=
  if e.Color != "" && isHexColor e.Color then e.Color
  else match (if e.Color != "" then personColors e.Color else none) with
    | some c => c
    | none => (personColors e.Person).getD "#607d8b"

/-- Variant 2's `getDefaultDate` (lines 269-274), at the level of day numbers:
a parseable date string keeps its own date, anything else becomes
`today + plusDays` (`if (plusDays)` is a no-op exactly when `plusDays = 0`,
i.e. adding `plusDays` either way). -/
def getDefaultDate (today : Int) (v : String) (plusDays : Int) : Int :=
  match parseDate v with
  | some d => d
  | none => today + plusDays

/-- The value `info.event.extendedProps.URL || info.event.extendedProps.Note` — the
link both `eventClick` handlers (lines 212-218, 461-466) resolve. -/
def resolveLink (e : EventRow) : String :=
  if e.URL != "" then e.URL else e.Note

/-- JS `s.startsWith(pre)`: a case-sensitive literal prefix test, embedded on
the character lists. -/
def strStartsWith (s pre : String) : Bool :=
  List.isPrefixOf pre.data s.data

/-- Truth of `url && url.startsWith('http')` — whether the click opens a link. -/
def isActionable (e : EventRow) : Bool :=
  resolveLink e != "" && strStartsWith (resolveLink e) "http"

/-- First-occurrence deduplication — the semantics of
`Array.from(new Set(xs))`: each value appears once, at the position of its
first occurrence in `xs`. -/
def dedupKeep : List String → List String
  | [] => []
  | x :: xs => x :: (dedupKeep xs).filter (fun y => y ≠ x)

/-- The source's `Array.from(new Set(events.map(e => e.Person))).filter(Boolean)`
(lines 79 and 319); `filter(Boolean)` on strings drops exactly `""`. -/
def personList (events : List EventRow) : List String :=
  (dedupKeep (events.map (fun e => e.Person))).filter (fun s => s ≠ "")

/-- The source's `Array.from(new Set(events.map(e => e.Status))).filter(Boolean)`
(lines 80 and 320). -/
def statusList (events : List EventRow) : List String :=
  (dedupKeep (events.map (fun e => e.Status))).filter (fun s => s ≠ "")

/-- One entry of variant 2's `calendarEvents` (lines 329-343); rendering-only
fields (`classNames`, `extendedProps`) are not part of the view model we
verify, dates are day numbers. -/
structure CalendarEvent where
  id : String
  resourceId : String
  title : String
  start : Int
  end' : Int
  backgroundColor : String
deriving DecidableEq, Repr

/-- One entry of `milestoneEvents` (lines 103-112 and 346-355).  The entry
carries only a `start` and no `end`, i.e. it spans a single date. -/
structure MilestoneEvent where
  id : String
  start : Int
  resourceId : String
  display : String
  backgroundColor : String
  borderColor : String
deriving DecidableEq, Repr

def mkCalendarEvent (today : Int) (idx : Nat) (e : EventRow) : CalendarEvent :=
  { id := toString idx
    resourceId := e.Person
    title := e.Task
    start := getDefaultDate today e.Start 0
    end' := getDefaultDate today e.End' 1
    backgroundColor := getColor e }

/-- Variant 2's `filtered.map((e, idx) => ...)` building the calendar events
(lines 329-343). -/
def calendarEvents (today : Int) (filtered : List EventRow) : List CalendarEvent :=
  filtered.enum.map (fun p => mkCalendarEvent today p.1 p.2)

/-- Variant 2's `milestoneEvents` (lines 346-355):
`filtered.filter(e => e.Type === "Milestone").map((e, idx) => ...)`. -/
def milestoneEvents (today : Int) (filtered : List EventRow) : List MilestoneEvent :=
  (filtered.filter (fun e => e.Type' == "Milestone")).enum.map
    (fun p => { id := "m-" ++ toString p.1
                start := getDefaultDate today p.2.Start 0
                resourceId := p.2.Person
                display := "background"
                backgroundColor := "#d32f2f"
                borderColor := "#d32f2f" })

/-- Variant 1's `allDates` (lines 115-118): the `Start` dates then the `End`
dates of the visible rows, keeping only the parseable ones
(`filter(d => !isNaN(d.getTime()))`). -/
def parsedDates (filtered : List EventRow) : List Int :=
  (filtered.map (fun e => parseDate e.Start) ++
   filtered.map (fun e => parseDate e.End')).filterMap id

/-- Variant 1's date window (lines 115-120): parseable `Start`/`End` dates of
the visible rows; non-empty → `[min, max]` (no padding), empty → `[today,
today]`. -/
def dateWindow1 (today : Int) (filtered : List EventRow) : Int × Int :=
  match parsedDates filtered with
  | [] => (today, today)
  | d :: ds => (ds.foldl min d, ds.foldl max d)

/-- Variant 2's `allDates` (lines 358-362): the coerced start and end dates
of the visible rows together with `today` itself (every member is a valid
date, so the `isNaN` filter drops nothing). -/
def coercedDates (today : Int) (filtered : List EventRow) : List Int :=
  filtered.map (fun e => getDefaultDate today e.Start 0) ++
  filtered.map (fun e => getDefaultDate today e.End' 1) ++ [today]

/-- Variant 2's date window (lines 358-366): `min - 7` and `max + 7` over
`coercedDates`.  The list always contains `today`, so seeding the folds with
`today` computes exactly `Math.min(...)` / `Math.max(...)` of the list. -/
def dateWindow2 (today : Int) (filtered : List EventRow) : Int × Int :=
  ((coercedDates today filtered).foldl min today - 7,
   (coercedDates today filtered).foldl max today + 7)

/-- The spec's `DerivedView` for variant 2 (lines 283-366): everything the
view model hands the rendering surface. -/
structure DerivedView where
  visibleRows : List EventRow
  personFacets : List String
  statusFacets : List String
  events : List CalendarEvent
  markers : List MilestoneEvent
  window : Int × Int
deriving DecidableEq, Repr

/-- The spec's `build(rows, filterState)` assembled from variant 2's
component computations; `today` is the clock value `new Date()` read during
the render. -/
def build (today : Int) (events : List EventRow) (fs : FilterState) : DerivedView :=
  let filtered := filterRows events fs
  { visibleRows := filtered
    personFacets := personList events
    statusFacets := statusList events
    events := calendarEvents today filtered
    markers := milestoneEvents today filtered
    window := dateWindow2 today filtered }

/-! ### Concrete sample data used by witnesses and counterexamples -/

/-- A plain task row dated 2024-01-10 .. 2024-01-20 (day numbers
19732 .. 19742). -/
def rowRD : EventRow :=
  { Person := "RD", Task := "T1", Start := "2024-01-10", End' := "2024-01-20"
    Type' := "Task", Status := "進行中", Progress := "", Color := ""
    Note := "", URL := "" }

/-- A milestone row. -/
def rowUI : EventRow :=
  { Person := "UI", Task := "T2", Start := "2024-02-01", End' := "2024-02-01"
    Type' := "Milestone", Status := "重要會議", Progress := "", Color := ""
    Note := "", URL := "" }

/-- A row with an empty `Start` and an unparseable `End`. -/
def rowBadDates : EventRow :=
  { Person := "RD", Task := "T3", Start := "", End' := "not-a-date"
    Type' := "Task", Status := "待辦", Progress := "", Color := ""
    Note := "", URL := "" }

/-- The milestone toggle switched off, everything else at its default. -/
def fsHideMilestones : FilterState :=
  { showMilestone := false, person := "", status := "" }

example : parseDate "1970-01-01" = some 0 := by decide
example : parseDate "2024-01-10" = some 19732 := by decide
example : parseDate "" = none := by rfl
example : parseDate "not-a-date" = none := by rfl

/-! ### Helper lemmas -/

theorem mem_dedupKeep (a : String) (l : List String) : a ∈ dedupKeep l ↔ a ∈ l := by
  induction l with
  | nil => simp [dedupKeep]
  | cons x xs ih =>
    simp only [dedupKeep, List.mem_cons, List.mem_filter, ih, decide_eq_true_eq]
    by_cases h : a = x <;> simp [h]

theorem nodup_dedupKeep (l : List String) : (dedupKeep l).Nodup := by
  induction l with
  | nil => simp [dedupKeep]
  | cons x xs ih =>
    refine List.nodup_cons.mpr ⟨fun h => ?_, ih.filter _⟩
    have := (List.mem_filter.mp h).2
    simp at this

theorem dedupKeep_sublist (l : List String) : List.Sublist (dedupKeep l) l := by
  induction l with
  | nil => simp [dedupKeep]
  | cons x xs ih =>
    exact ((List.filter_sublist _).trans ih).cons₂ x

theorem foldl_min_le (ds : List Int) (d : Int) : ∀ x ∈ d :: ds, ds.foldl min d ≤ x := by
  induction ds generalizing d with
  | nil =>
    intro x hx
    simp only [List.mem_singleton] at hx
    simp [hx]
  | cons e t ih =>
    intro x hx
    have hstep : List.foldl min d (e :: t) = List.foldl min (min d e) t := rfl
    rw [hstep]
    have hle : List.foldl min (min d e) t ≤ min d e :=
      ih (min d e) (min d e) (List.mem_cons_self _ _)
    rcases List.mem_cons.mp hx with hx | hx
    · exact hx ▸ hle.trans (min_le_left _ _)
    rcases List.mem_cons.mp hx with hx | hx
    · exact hx ▸ hle.trans (min_le_right _ _)
    · exact ih (min d e) x (List.mem_cons_of_mem _ hx)

theorem foldl_min_mem (ds : List Int) (d : Int) : ds.foldl min d ∈ d :: ds := by
  induction ds generalizing d with
  | nil => simp
  | cons e t ih =>
    have hstep : List.foldl min d (e :: t) = List.foldl min (min d e) t := rfl
    rw [hstep]
    rcases List.mem_cons.mp (ih (min d e)) with h | h
    · rcases min_choice d e with hc | hc
      · rw [h, hc]; exact List.mem_cons_self _ _
      · rw [h, hc]; exact List.mem_cons_of_mem _ (List.mem_cons_self _ _)
    · exact List.mem_cons_of_mem _ (List.mem_cons_of_mem _ h)

theorem le_foldl_max (ds : List Int) (d : Int) : ∀ x ∈ d :: ds, x ≤ ds.foldl max d := by
  induction ds generalizing d with
  | nil =>
    intro x hx
    simp only [List.mem_singleton] at hx
    simp [hx]
  | cons e t ih =>
    intro x hx
    have hstep : List.foldl max d (e :: t) = List.foldl max (max d e) t := rfl
    rw [hstep]
    have hle : max d e ≤ List.foldl max (max d e) t :=
      ih (max d e) (max d e) (List.mem_cons_self _ _)
    rcases List.mem_cons.mp hx with hx | hx
    · exact hx ▸ (le_max_left d e).trans hle
    rcases List.mem_cons.mp hx with hx | hx
    · exact hx ▸ (le_max_right d e).trans hle
    · exact ih (max d e) x (List.mem_cons_of_mem _ hx)

theorem foldl_max_mem (ds : List Int) (d : Int) : ds.foldl max d ∈ d :: ds := by
  induction ds generalizing d with
  | nil => simp
  | cons e t ih =>
    have hstep : List.foldl max d (e :: t) = List.foldl max (max d e) t := rfl
    rw [hstep]
    rcases List.mem_cons.mp (ih (max d e)) with h | h
    · rcases max_choice d e with hc | hc
      · rw [h, hc]; exact List.mem_cons_self _ _
      · rw [h, hc]; exact List.mem_cons_of_mem _ (List.mem_cons_self _ _)
    · exact List.mem_cons_of_mem _ (List.mem_cons_of_mem _ h)

/-! ### Claims -/

/-- C1: a row `r` is in `visibleRows` iff it is an input row and all three
filter predicates hold — milestone toggle, person facet, status facet; in
particular `visibleRows` is a subset of the input rows and no non-matching
row appears. -/
theorem visibleRows_characterization (rows : List EventRow) (fs : FilterState) :
    filterRows rows fs ⊆ rows ∧
    (∀ r, r ∈ filterRows rows fs ↔
      r ∈ rows ∧
      (fs.showMilestone = true ∨ r.Type' ≠ "Milestone") ∧
      (fs.person = "" ∨ r.Person = fs.person) ∧
      (fs.status = "" ∨ r.Status = fs.status)) := by
  constructor
  · exact fun a ha => (List.mem_filter.mp ha).1
  · intro r
    simp [filterRows, List.mem_filter, passFilter, and_assoc]

/-- C1 witness: on the sample data, `rowRD` passes the default filter. -/
theorem visibleRows_characterization_witness :
    rowRD ∈ filterRows [rowRD, rowUI] defaultFilterState :=
  ((visibleRows_characterization [rowRD, rowUI] defaultFilterState).2 rowRD).mpr
    ⟨by decide, by decide, by decide, by decide⟩

/-- C10: with the default `FilterState` (milestones shown, both facet
selections empty) filtering is the identity on every row list. -/
theorem default_filter_identity (rows : List EventRow) :
    filterRows rows defaultFilterState = rows := by
  apply List.filter_eq_self.mpr
  intro a _
  simp [passFilter, defaultFilterState]

/-- C10 witness: the identity on concrete two-row data. -/
theorem default_filter_identity_witness :
    filterRows [rowRD, rowUI] defaultFilterState = [rowRD, rowUI] :=
  default_filter_identity [rowRD, rowUI]

/-- C4: the click handler resolves `URL || Note` and opens it iff the
resolved string starts with the literal `"http"`; concretely,
`url="https://x"` is actionable while `url=""`/`note="see https://y"` and
`url="ftp://z"` are not. -/
theorem link_resolution (e : EventRow) :
    (isActionable e = true ↔
      ((e.URL ≠ "" ∧ strStartsWith e.URL "http" = true) ∨
       (e.URL = "" ∧ strStartsWith e.Note "http" = true))) ∧
    isActionable { rowRD with URL := "https://x" } = true ∧
    isActionable { rowRD with URL := "", Note := "see https://y" } = false ∧
    isActionable { rowRD with URL := "ftp://z" } = false := by
  refine ⟨?_, by decide, by decide, by decide⟩
  unfold isActionable resolveLink
  by_cases hU : e.URL = ""
  · by_cases hN : e.Note = ""
    · simp [hU, hN]
      decide
    · simp [hU, hN]
  · simp [hU]

/-- C5: `getColor` resolves in strict priority order — a 3- or 6-digit hex
`Color` is used verbatim, else a non-empty `Color` that is a known alias key
maps through the alias table, else the per-person default applies with
`"#607d8b"` as the final fallback (an empty `Color` always falls through to
the person default). -/
theorem getColor_priority (e : EventRow) (c : String) :
    (isHexColor e.Color = true → getColor e = e.Color) ∧
    (isHexColor e.Color = false → e.Color ≠ "" → personColors e.Color = some c →
      getColor e = c) ∧
    (isHexColor e.Color = false → e.Color ≠ "" → personColors e.Color = none →
      getColor e = (personColors e.Person).getD "#607d8b") ∧
    (e.Color = "" → getColor e = (personColors e.Person).getD "#607d8b") := by
  refine ⟨?_, ?_, ?_, ?_⟩
  · intro h
    have hne : e.Color ≠ "" := by
      intro h0
      rw [h0] at h
      exact absurd h (by decide)
    simp [getColor, h, hne]
  · intro h1 h2 h3
    simp [getColor, h1, h2, h3]
  · intro h1 h2 h3
    simp [getColor, h1, h2, h3]
  · intro h0
    simp [getColor, h0]

/-- C5 witness: a verbatim hex color, an alias key, the RD person default,
and the double-empty fallback gray. -/
theorem getColor_priority_witness :
    getColor { rowRD with Color := "#ABC" } = "#ABC" ∧
    getColor { rowRD with Color := "UI" } = "#2196f3" ∧
    getColor rowRD = "#4caf50" ∧
    getColor { rowRD with Person := "", Color := "" } = "#607d8b" := by
  refine ⟨?_, ?_, ?_, ?_⟩
  · exact (getColor_priority { rowRD with Color := "#ABC" } "").1 (by decide)
  · exact (getColor_priority { rowRD with Color := "UI" } "#2196f3").2.1
      (by decide) (by decide) (by decide)
  · have h := (getColor_priority rowRD "").2.2.2 (by rfl)
    rw [h]
    decide
  · have h := (getColor_priority { rowRD with Person := "", Color := "" } "").2.2.2 (by rfl)
    rw [h]
    decide

/-- C6: under the status-based policy (`getStatusColor`) a `Milestone`-type
row is always the fixed red `"#d32f2f"`, whatever its `Status` and whatever
its `Color`; a non-`Milestone` row is colored by the status table with
`"#607d8b"` for an unknown status, independently of `Color` as well. -/
theorem statusColor_policy (e : EventRow) (c cNew s : String) :
    (e.Type' = "Milestone" → getStatusColor e = "#d32f2f") ∧
    (e.Type' = "Milestone" → getStatusColor { e with Status := s } = "#d32f2f") ∧
    getStatusColor { e with Color := cNew } = getStatusColor e ∧
    (e.Type' ≠ "Milestone" → statusColors e.Status = some c → getStatusColor e = c) ∧
    (e.Type' ≠ "Milestone" → statusColors e.Status = none →
      getStatusColor e = "#607d8b") := by
  refine ⟨?_, ?_, rfl, ?_, ?_⟩
  · intro h
    simp [getStatusColor, h]
  · intro h
    simp [getStatusColor, h]
  · intro h1 h2
    simp [getStatusColor, h1, h2]
  · intro h1 h2
    simp [getStatusColor, h1, h2]

/-- C6 witness: a milestone stays red even with another status and an
explicit green `Color`; a non-milestone follows the status table, unknown
statuses fall back to gray. -/
theorem statusColor_policy_witness :
    getStatusColor rowUI = "#d32f2f" ∧
    getStatusColor { rowUI with Status := "已完成", Color := "#00ff00" } = "#d32f2f" ∧
    getStatusColor rowRD = "#2196f3" ∧
    getStatusColor { rowRD with Status := "unknown" } = "#607d8b" := by
  refine ⟨?_, ?_, ?_, ?_⟩
  · exact (statusColor_policy rowUI "" "" "").1 (by rfl)
  · exact (statusColor_policy { rowUI with Color := "#00ff00" } "" "" "已完成").2.1 (by rfl)
  · exact (statusColor_policy rowRD "#2196f3" "" "").2.2.2.1 (by decide) (by decide)
  · exact (statusColor_policy { rowRD with Status := "unknown" } "" "" "").2.2.2.2
      (by decide) (by decide)

/-- C7: the facet lists are the distinct non-empty `Person`/`Status` values
of the full unfiltered row set in source order (a duplicate-free sublist of
the value sequence containing exactly its non-empty members), and they are
unchanged by the `FilterState`. -/
theorem facet_extraction (rows : List EventRow) (t : Int) (fs1 fs2 : FilterState) :
    (∀ x, x ∈ personList rows ↔ x ≠ "" ∧ x ∈ rows.map (fun e => e.Person)) ∧
    (∀ x, x ∈ statusList rows ↔ x ≠ "" ∧ x ∈ rows.map (fun e => e.Status)) ∧
    (personList rows).Nodup ∧
    (statusList rows).Nodup ∧
    List.Sublist (personList rows) (rows.map (fun e => e.Person)) ∧
    List.Sublist (statusList rows) (rows.map (fun e => e.Status)) ∧
    (build t rows fs1).personFacets = (build t rows fs2).personFacets ∧
    (build t rows fs1).statusFacets = (build t rows fs2).statusFacets := by
  refine ⟨?_, ?_, ?_, ?_, ?_, ?_, rfl, rfl⟩
  · intro x
    simp [personList, List.mem_filter, mem_dedupKeep, and_comm]
  · intro x
    simp [statusList, List.mem_filter, mem_dedupKeep, and_comm]
  · exact (nodup_dedupKeep _).filter _
  · exact (nodup_dedupKeep _).filter _
  · exact (List.filter_sublist _).trans (dedupKeep_sublist _)
  · exact (List.filter_sublist _).trans (dedupKeep_sublist _)

/-- C7 witness: facets of a concrete row set with a duplicate person and a
blank person. -/
theorem facet_extraction_witness :
    "RD" ∈ personList [rowRD, rowUI, rowBadDates, { rowRD with Person := "" }] ∧
    personList [rowRD, rowUI, rowBadDates, { rowRD with Person := "" }] = ["RD", "UI"] :=
  ⟨((facet_extraction [rowRD, rowUI, rowBadDates, { rowRD with Person := "" }] 0
      defaultFilterState fsHideMilestones).1 "RD").mpr ⟨by decide, by decide⟩,
   by decide⟩

/-- C2 counterexample: variant 1 applies no 7-day pad — rows dated
2024-01-10 .. 2024-01-20 (day numbers 19732 .. 19742) yield the window
`(19732, 19742)`, not the claimed 2024-01-03 .. 2024-01-27
(`(19725, 19749)`); and variant 2 does not collapse to `[today, today]` when
no visible row exists — it yields `[today - 7, today + 7]`. -/
theorem dateWindow_claim_counterexample :
    dateWindow1 20000 [rowRD] ≠ (19725, 19749) ∧
    dateWindow2 20000 ([] : List EventRow) ≠ (20000, 20000) := by
  constructor
  · decide
  · decide

/-- C2 (amended): variant 1's window is the exact `[min, max]` of the
parseable start/end dates of the visible rows, with no padding, collapsing
to `[today, today]` when none parse; variant 2's window is
`[min - 7, max + 7]` over the coerced dates of the visible rows *together
with today*, so it always contains today and yields `[today - 7, today + 7]`
for zero visible rows. -/
theorem dateWindow_characterization (today : Int) (filtered : List EventRow) :
    (parsedDates filtered = [] → dateWindow1 today filtered = (today, today)) ∧
    (parsedDates filtered ≠ [] →
      (dateWindow1 today filtered).1 ∈ parsedDates filtered ∧
      (dateWindow1 today filtered).2 ∈ parsedDates filtered ∧
      ∀ d ∈ parsedDates filtered,
        (dateWindow1 today filtered).1 ≤ d ∧ d ≤ (dateWindow1 today filtered).2) ∧
    ((dateWindow2 today filtered).1 + 7 ∈ today :: coercedDates today filtered ∧
     (dateWindow2 today filtered).2 - 7 ∈ today :: coercedDates today filtered ∧
     today ∈ coercedDates today filtered ∧
     ∀ d ∈ coercedDates today filtered,
       (dateWindow2 today filtered).1 + 7 ≤ d ∧ d ≤ (dateWindow2 today filtered).2 - 7) := by
  refine ⟨?_, ?_, ?_, ?_, ?_⟩
  · intro h
    unfold dateWindow1
    rw [h]
  · intro h
    rcases hpd : parsedDates filtered with _ | ⟨d, ds⟩
    · exact absurd hpd h
    · have heq : dateWindow1 today filtered = (ds.foldl min d, ds.foldl max d) := by
        unfold dateWindow1
        rw [hpd]
      rw [heq]
      refine ⟨foldl_min_mem ds d, foldl_max_mem ds d, ?_⟩
      intro x hx
      exact ⟨foldl_min_le ds d x hx, le_foldl_max ds d x hx⟩
  · have h := foldl_min_mem (coercedDates today filtered) today
    unfold dateWindow2
    simpa using h
  · have h := foldl_max_mem (coercedDates today filtered) today
    unfold dateWindow2
    simpa using h
  · refine ⟨by simp [coercedDates], ?_⟩
    intro d hd
    unfold dateWindow2
    constructor
    · simpa using foldl_min_le (coercedDates today filtered) today d
        (List.mem_cons_of_mem _ hd)
    · simpa using le_foldl_max (coercedDates today filtered) today d
        (List.mem_cons_of_mem _ hd)

/-- C2 witness: the empty-row fallback of variant 1 and the min-membership of
variant 1's window on the sample row, via the amended characterization. -/
theorem dateWindow_characterization_witness :
    dateWindow1 20000 ([] : List EventRow) = (20000, 20000) ∧
    (dateWindow1 20000 [rowRD]).1 ∈ parsedDates [rowRD] :=
  ⟨(dateWindow_characterization 20000 []).1 (by rfl),
   ((dateWindow_characterization 20000 [rowRD]).2.1 (by decide)).1⟩

/-- C3: an unparseable `Start` is coerced to today, an unparseable `End` to
today + 1 (variant 2's `getDefaultDate` inside `calendarEvents`); every
visible row yields exactly one calendar event (none is dropped for its
dates), and the filter never inspects `Start`/`End`, so a malformed-date row
stays in `visibleRows`. -/
theorem malformed_date_coercion (today : Int) (idx : Nat) (e : EventRow)
    (fs : FilterState) :
    (parseDate e.Start = none → (mkCalendarEvent today idx e).start = today) ∧
    (parseDate e.End' = none → (mkCalendarEvent today idx e).end' = today + 1) ∧
    (∀ filtered : List EventRow,
      (calendarEvents today filtered).length = filtered.length) ∧
    (∀ e' : EventRow, e.Person = e'.Person → e.Type' = e'.Type' →
      e.Status = e'.Status → passFilter fs e = passFilter fs e') := by
  refine ⟨?_, ?_, ?_, ?_⟩
  · intro h
    simp [mkCalendarEvent, getDefaultDate, h]
  · intro h
    simp [mkCalendarEvent, getDefaultDate, h]
  · intro filtered
    simp [calendarEvents]
  · intro e' h1 h2 h3
    simp [passFilter, h1, h2, h3]

/-- C3 witness: the row with `Start=""`, `End="not-a-date"` becomes
`start = today`, `end = today + 1` and passes the default filter. -/
theorem malformed_date_coercion_witness :
    (mkCalendarEvent 20000 0 rowBadDates).start = 20000 ∧
    (mkCalendarEvent 20000 0 rowBadDates).end' = 20000 + 1 ∧
    rowBadDates ∈ filterRows [rowBadDates] defaultFilterState :=
  ⟨(malformed_date_coercion 20000 0 rowBadDates defaultFilterState).1 (by rfl),
   (malformed_date_coercion 20000 0 rowBadDates defaultFilterState).2.1 (by rfl),
   by decide⟩

/-- C8: each visible `Milestone` row yields exactly one background marker
(the marker list is as long as the list of visible milestone rows, so
non-milestone rows yield none), every marker is the fixed accent red and a
background display, it carries only a `start` (the `MilestoneEvent` record
has no end field), and with `showMilestones = false` no marker is produced
from a filtered row set at all. -/
theorem milestone_markers (today : Int) (rows filtered : List EventRow)
    (fs : FilterState) :
    (milestoneEvents today filtered).length =
      (filtered.filter (fun e => e.Type' == "Milestone")).length ∧
    (∀ m ∈ milestoneEvents today filtered,
      m.backgroundColor = "#d32f2f" ∧ m.borderColor = "#d32f2f" ∧
      m.display = "background") ∧
    (fs.showMilestone = false → milestoneEvents today (filterRows rows fs) = []) := by
  refine ⟨?_, ?_, ?_⟩
  · simp [milestoneEvents]
  · intro m hm
    simp only [milestoneEvents] at hm
    rcases List.mem_map.mp hm with ⟨p, _, rfl⟩
    exact ⟨rfl, rfl, rfl⟩
  · intro h
    have hnil : (filterRows rows fs).filter (fun e => e.Type' == "Milestone") = [] := by
      apply List.filter_eq_nil_iff.mpr
      intro e he
      have hp := (List.mem_filter.mp he).2
      simp only [passFilter, h, Bool.false_or, Bool.and_eq_true, bne_iff_ne] at hp
      simp [hp.1]
    simp [milestoneEvents, hnil]

/-- C8 witness: the two-row scenario — an RD task and a UI milestone with
`showMilestones = false` leave only the RD row visible and produce no
marker. -/
theorem milestone_markers_witness :
    filterRows [rowRD, rowUI] fsHideMilestones = [rowRD] ∧
    milestoneEvents 20000 (filterRows [rowRD, rowUI] fsHideMilestones) = [] :=
  ⟨by decide,
   (milestone_markers 20000 [rowRD, rowUI] [] fsHideMilestones).2.2 (by rfl)⟩

/-- C9 counterexample: the view-model build is *not* a function of
`(rows, filterState)` alone — it also reads the clock.  With no rows and the
default filter, builds at two different values of `new Date()` differ (the
date window moves with today). -/
theorem build_depends_on_clock :
    build 0 [] defaultFilterState ≠ build 1 [] defaultFilterState := by
  decide

/-- C9 (amended): the build is a pure, deterministic, idempotent function of
*three* inputs — rows, the filter state, and the current date: evaluations
with identical rows, filter state and clock value produce identical
`DerivedView` output. -/
theorem build_deterministic (t1 t2 : Int) (rows1 rows2 : List EventRow)
    (fs1 fs2 : FilterState) (ht : t1 = t2) (hr : rows1 = rows2) (hf : fs1 = fs2) :
    build t1 rows1 fs1 = build t2 rows2 fs2 := by
  rw [ht, hr, hf]

/-- C9 witness: rebuilding concrete inputs at the same clock value is
bit-identical. -/
theorem build_deterministic_witness :
    build 20000 [rowRD, rowUI] defaultFilterState =
      build 20000 [rowRD, rowUI] defaultFilterState :=
  build_deterministic 20000 20000 [rowRD, rowUI] [rowRD, rowUI]
    defaultFilterState defaultFilterState rfl rfl rfl
